import Mathlib

/-!
# Verification of the weather_app inference server

Shallow embedding of `src/ai_model_server/app.py` (Flask server for the
weather exercise-suitability classifier) and proofs of the serving
contract: validation pipeline, model lifecycle and response shaping.

Python scalar values in request payloads are embedded as `PyVal`; Python
float literals such as `0.0`, `1.0`, `0.5` are embedded as rationals,
which is exact for these values, so Python numeric equality against the
integers `0`/`1` coincides with rational equality. The JSON body parsed
by `request.get_json()` is embedded as `Option Dict` (`Option.none` for
an absent body, an association list otherwise; Python dicts are falsy
exactly when empty). The classifier artifact unpickled from `model.pkl`
is embedded as an abstract function `Model`; its call (together with the
numpy conversion around it in `make_prediction`) may raise, which is
embedded as `Except String Int`. The trained classifier produced by
`create_model.py` is a decision tree fitted on labels drawn from `{0,1}`
only, so every artifact this server loads satisfies `BinaryModel`.
-/

namespace WeatherApp

/-- Python values occurring in request payloads: ints, floats (embedded
as rationals, exact for the binary-feature payloads at issue), booleans,
strings, lists and None. -/
inductive PyVal where
  | int (n : Int)
  | float (q : Rat)
  | bool (b : Bool)
  | str (s : String)
  | list (xs : List PyVal)
  | null

/-- Python numeric equality of a payload value against an integer
constant: `True == 1`, `False == 0`, `1.0 == 1`, while strings, lists
and None are never equal to an integer. -/
def pyEqInt : PyVal → Int → Bool
  | PyVal.int n, k => n == k
  | PyVal.float q, k => q == (k : Rat)
  | PyVal.bool b, k => (if b then (1 : Int) else 0) == k
  | _, _ => false

/-- The membership test `f in [0, 1]` from app.py line 144, under Python
numeric equality. -/
def inBinaryDomain (f : PyVal) : Bool :=
  pyEqInt f 0 || pyEqInt f 1

/-- A parsed JSON object body: association list of keys to values. -/
def Dict : Type := List (String × PyVal)

/-- Key lookup in a parsed JSON object, the embedding of
`'features' in data` / `data['features']`. -/
def lookupKey : Dict → String → Option PyVal
  | [], _ => Option.none
  | (k, v) :: rest, key => if k == key then some v else lookupKey rest key

/-- Emptiness of a parsed JSON object: a Python dict is falsy exactly
when it is empty, so `not data` for a present dict body is this test. -/
def dictIsEmpty : Dict → Bool
  | [] => true
  | _ :: _ => false

/-- The classifier artifact, abstract to the server: called on the
feature list it either returns an integer label or raises (the raise,
including any failure inside numpy conversion or `model.predict`, is
embedded as `Except.error`). -/
def Model : Type := List PyVal → Except String Int

/-- The classifier trained by `create_model.py` is fitted on labels
drawn from `{0, 1}` only, so any label it returns is `0` or `1`. -/
def BinaryModel (m : Model) : Prop :=
  ∀ xs p, m xs = Except.ok p → p = 0 ∨ p = 1

/-- Embedding of `make_prediction` (app.py lines 61-87): raises
"Model not loaded" when the global model is None, otherwise delegates to
the loaded classifier. -/
def make_prediction (model : Option Model) (features : List PyVal) :
    Except String Int :=
  match model with
  | Option.none => Except.error "Model not loaded"
  | some m => m features

/-- An error response body `{error, message}`. -/
structure ErrorBody where
  error : String
  message : String

/-- The `input_features` object of a success body (app.py lines
158-164): the five payload values echoed back by name. -/
structure InputFeatures where
  outlook_rainy : PyVal
  outlook_sunny : PyVal
  temperature_hot : PyVal
  temperature_mild : PyVal
  humidity_normal : PyVal

/-- The success response body built at app.py lines 154-166. -/
structure SuccessBody where
  prediction : Int
  suitable_for_training : Bool
  confidence : String
  input_features : InputFeatures
  message : String

/-- A rendered HTTP response from the predict endpoint: a JSON body with
a status code (Flask defaults to 200 when no code is given). -/
inductive Response where
  | success (status : Nat) (body : SuccessBody)
  | failure (status : Nat) (body : ErrorBody)

/-- The health response body built at app.py lines 97-101. -/
structure HealthBody where
  status : String
  message : String
  model_loaded : Bool

/-- Embedding of `health_check` (app.py lines 89-101): status code and
body of `GET /health`, reading the global model state. -/
def health_check (model : Option Model) : Nat × HealthBody :=
  (200, ⟨"healthy", "AI Model Server is running", model.isSome⟩)

/-- Embedding of `predict` (app.py lines 103-175): the POST /predict
handler, reading the global model state and the parsed JSON body. Every
branch of the source handler appears: the model-loaded guard, the
`not data or 'features' not in data` guard, the
`not isinstance(features, list) or len(features) != 5` guard, the
`all(f in [0, 1] for f in features)` guard, the call to
`make_prediction` whose raise is caught by the surrounding
`try`/`except` as a 500 "Prediction failed", and the success body. -/
def predict (model : Option Model) (data : Option Dict) : Response :=
  if model.isNone then
    Response.failure 500
      ⟨"Model not loaded", "Please ensure model.pkl file is available"⟩
  else
    match data with
    | Option.none =>
        Response.failure 400
          ⟨"Invalid request", "Request must contain \"features\" array"⟩
    | some d =>
        if dictIsEmpty d then
          Response.failure 400
            ⟨"Invalid request", "Request must contain \"features\" array"⟩
        else
          match lookupKey d "features" with
          | Option.none =>
              Response.failure 400
                ⟨"Invalid request", "Request must contain \"features\" array"⟩
          | some (PyVal.list fs) =>
              if fs.length ≠ 5 then
                Response.failure 400
                  ⟨"Invalid features",
                   "Features must be an array of exactly 5 values"⟩
              else if !(fs.all inBinaryDomain) then
                Response.failure 400
                  ⟨"Invalid feature values",
                   "All features must be binary (0 or 1)"⟩
              else
                match make_prediction model fs with
                | Except.error e =>
                    Response.failure 500 ⟨"Prediction failed", e⟩
                | Except.ok p =>
                    Response.success 200
                      ⟨p, p == 1, "high",
                       ⟨fs.getD 0 PyVal.null, fs.getD 1 PyVal.null,
                        fs.getD 2 PyVal.null, fs.getD 3 PyVal.null,
                        fs.getD 4 PyVal.null⟩,
                       if p == 1 then "Suitable for exercise"
                       else "Not suitable for exercise"⟩
          | some _ =>
              Response.failure 400
                ⟨"Invalid features",
                 "Features must be an array of exactly 5 values"⟩

/-- Environment of one `load_model` attempt (app.py lines 33-59): does
`os.path.exists` find `model.pkl`, and what does `pickle.load` yield if
attempted (a model, or a raise embedded as `Except.error`). -/
structure LoadEnv where
  fileExists : Bool
  deserialize : Except String Model

/-- Embedding of `load_model` (app.py lines 33-59) with the write to the
global `model` made explicit: returns the boolean result and the
post-state. The global is assigned only when `pickle.load` returns; a
missing file or a raise inside the `try` leaves it untouched and yields
`false` via the early return or the `except` clause. -/
def load_model (env : LoadEnv) (model : Option Model) :
    Bool × Option Model :=
  if !env.fileExists then (false, model)
  else
    match env.deserialize with
    | Except.ok m => (true, some m)
    | Except.error _ => (false, model)

/-- The `predict` handler with the global model state passed through
explicitly: the source handler reads the global `model` and contains no
assignment to it, so the post-state is the pre-state. -/
def predictStep (model : Option Model) (data : Option Dict) :
    Response × Option Model :=
  (predict model data, model)

/-- The `health_check` handler with the global model state passed
through explicitly: the source handler reads the global `model` and
contains no assignment to it. -/
def healthStep (model : Option Model) :
    (Nat × HealthBody) × Option Model :=
  (health_check model, model)

/-- A response is a handled outcome of the predict endpoint: either the
200 success or one of the 400/500 error renderings produced inside the
handler; nothing else ever leaves it. -/
def handled : Response → Bool
  | Response.success s _ => s == 200
  | Response.failure s _ => s == 400 || s == 500

/-- A sample loaded classifier that always answers label 1, standing in
for the artifact in concrete evaluations. -/
def demoModel : Model := fun _ => Except.ok 1

/-- A sample loaded classifier that always answers label 0. -/
def altModel : Model := fun _ => Except.ok 0

/-- A sample classifier whose call raises, standing in for an inference
failure inside `model.predict`. -/
def errModel : Model := fun _ => Except.error "inference exploded"

/-- C2: with no model loaded, `predict` returns the 500
"Model not loaded" error for every payload — present or absent, valid or
invalid — so no validation error is ever produced in that state. -/
theorem predict_model_not_loaded (data : Option Dict) :
    predict Option.none data =
      Response.failure 500
        ⟨"Model not loaded", "Please ensure model.pkl file is available"⟩ :=
  rfl

/-- C8: `health_check` always answers 200 with the fixed status string
"healthy" and a `model_loaded` flag equal to the model store readiness
(`model is not None`), for every model state. -/
theorem health_check_contract (model : Option Model) :
    (health_check model).1 = 200 ∧
    (health_check model).2.status = "healthy" ∧
    (health_check model).2.model_loaded = model.isSome :=
  ⟨rfl, rfl, rfl⟩

/-- The sample classifier `demoModel` only ever answers 1, so it is a
binary classifier in the sense of the spec's data model. -/
theorem demoModel_binary : BinaryModel demoModel := by
  intro xs p h
  simp only [demoModel] at h
  cases h
  right
  rfl

/-- C1: with a model loaded, a payload whose `features` value is a list
of exactly 5 values each in {0, 1} yields the 200 success body: the
prediction is the model label (in {0, 1} since the classifier is
binary), `suitable_for_training` is `label == 1`, confidence is the
fixed literal "high", the five inputs are echoed by name in order, and
the message is selected by the label. -/
theorem predict_success_contract (m : Model) (d : Dict)
    (f0 f1 f2 f3 f4 : PyVal) (p : Int)
    (hbin : BinaryModel m)
    (hne : dictIsEmpty d = false)
    (hfind : lookupKey d "features" = some (PyVal.list [f0, f1, f2, f3, f4]))
    (h0 : inBinaryDomain f0 = true) (h1 : inBinaryDomain f1 = true)
    (h2 : inBinaryDomain f2 = true) (h3 : inBinaryDomain f3 = true)
    (h4 : inBinaryDomain f4 = true)
    (hm : m [f0, f1, f2, f3, f4] = Except.ok p) :
    (p = 0 ∨ p = 1) ∧
    predict (some m) (some d) =
      Response.success 200
        ⟨p, p == 1, "high", ⟨f0, f1, f2, f3, f4⟩,
         if p == 1 then "Suitable for exercise"
         else "Not suitable for exercise"⟩ := by
  refine ⟨hbin _ p hm, ?_⟩
  simp [predict, hne, hfind, h0, h1, h2, h3, h4, make_prediction, hm]

/-- C1 witness: the spec scenario `[0,1,0,1,1]` (sunny, mild, normal
humidity) against a loaded classifier answering 1. -/
theorem predict_success_contract_witness :
    ((1 : Int) = 0 ∨ (1 : Int) = 1) ∧
    predict (some demoModel)
        (some [("features",
          PyVal.list [PyVal.int 0, PyVal.int 1, PyVal.int 0,
                      PyVal.int 1, PyVal.int 1])]) =
      Response.success 200
        ⟨1, (1 : Int) == 1, "high",
         ⟨PyVal.int 0, PyVal.int 1, PyVal.int 0, PyVal.int 1, PyVal.int 1⟩,
         if (1 : Int) == 1 then "Suitable for exercise"
         else "Not suitable for exercise"⟩ :=
  predict_success_contract demoModel
    [("features",
      PyVal.list [PyVal.int 0, PyVal.int 1, PyVal.int 0,
                  PyVal.int 1, PyVal.int 1])]
    (PyVal.int 0) (PyVal.int 1) (PyVal.int 0) (PyVal.int 1) (PyVal.int 1) 1
    demoModel_binary rfl rfl rfl rfl rfl rfl rfl rfl

/-- C3: with a model loaded, a length-5 `features` list failing the
binary-domain test somewhere yields 400 "Invalid feature values", the
outcome is independent of the loaded model (so the model is not
invoked), and the float literals 0.0 and 1.0 do pass the domain test. -/
theorem predict_out_of_domain (m mAlt : Model) (d : Dict) (fs : List PyVal)
    (hne : dictIsEmpty d = false)
    (hfind : lookupKey d "features" = some (PyVal.list fs))
    (hlen : fs.length = 5)
    (hbad : fs.all inBinaryDomain = false) :
    predict (some m) (some d) =
      Response.failure 400
        ⟨"Invalid feature values", "All features must be binary (0 or 1)"⟩ ∧
    predict (some m) (some d) = predict (some mAlt) (some d) ∧
    inBinaryDomain (PyVal.float 0) = true ∧
    inBinaryDomain (PyVal.float 1) = true := by
  have key : ∀ mm : Model, predict (some mm) (some d) =
      Response.failure 400
        ⟨"Invalid feature values", "All features must be binary (0 or 1)"⟩ := by
    intro mm
    simp [predict, hne, hfind, hlen, hbad]
  exact ⟨key m, (key m).trans (key mAlt).symm, by decide, by decide⟩

/-- C3 witness: the list `[0, 1, 2, 0, 1]` whose third value 2 is out of
domain, evaluated under two different loaded models. -/
theorem predict_out_of_domain_witness :
    predict (some demoModel)
        (some [("features",
          PyVal.list [PyVal.int 0, PyVal.int 1, PyVal.int 2,
                      PyVal.int 0, PyVal.int 1])]) =
      Response.failure 400
        ⟨"Invalid feature values", "All features must be binary (0 or 1)"⟩ ∧
    predict (some demoModel)
        (some [("features",
          PyVal.list [PyVal.int 0, PyVal.int 1, PyVal.int 2,
                      PyVal.int 0, PyVal.int 1])]) =
      predict (some altModel)
        (some [("features",
          PyVal.list [PyVal.int 0, PyVal.int 1, PyVal.int 2,
                      PyVal.int 0, PyVal.int 1])]) ∧
    inBinaryDomain (PyVal.float 0) = true ∧
    inBinaryDomain (PyVal.float 1) = true :=
  predict_out_of_domain demoModel altModel
    [("features",
      PyVal.list [PyVal.int 0, PyVal.int 1, PyVal.int 2,
                  PyVal.int 0, PyVal.int 1])]
    [PyVal.int 0, PyVal.int 1, PyVal.int 2, PyVal.int 0, PyVal.int 1]
    rfl rfl rfl rfl

/-- C4: with a model loaded, a `features` list whose length is not 5
yields 400 "Invalid features", independently of the loaded model (so the
model is not invoked). -/
theorem predict_wrong_arity (m mAlt : Model) (d : Dict) (fs : List PyVal)
    (hne : dictIsEmpty d = false)
    (hfind : lookupKey d "features" = some (PyVal.list fs))
    (hlen : fs.length ≠ 5) :
    predict (some m) (some d) =
      Response.failure 400
        ⟨"Invalid features",
         "Features must be an array of exactly 5 values"⟩ ∧
    predict (some m) (some d) = predict (some mAlt) (some d) := by
  have key : ∀ mm : Model, predict (some mm) (some d) =
      Response.failure 400
        ⟨"Invalid features",
         "Features must be an array of exactly 5 values"⟩ := by
    intro mm
    simp [predict, hne, hfind, hlen]
  exact ⟨key m, (key m).trans (key mAlt).symm⟩

/-- C4 witness: the spec scenario `[0, 1, 0]` of 3 elements, under two
different loaded models. -/
theorem predict_wrong_arity_witness :
    predict (some demoModel)
        (some [("features",
          PyVal.list [PyVal.int 0, PyVal.int 1, PyVal.int 0])]) =
      Response.failure 400
        ⟨"Invalid features",
         "Features must be an array of exactly 5 values"⟩ ∧
    predict (some demoModel)
        (some [("features",
          PyVal.list [PyVal.int 0, PyVal.int 1, PyVal.int 0])]) =
      predict (some altModel)
        (some [("features",
          PyVal.list [PyVal.int 0, PyVal.int 1, PyVal.int 0])]) :=
  predict_wrong_arity demoModel altModel
    [("features", PyVal.list [PyVal.int 0, PyVal.int 1, PyVal.int 0])]
    [PyVal.int 0, PyVal.int 1, PyVal.int 0]
    rfl rfl (by decide)

/-- C5: with a model loaded, a payload with no `features` key — absent
body, empty object body, or an object without the key — yields 400
"Invalid request", independently of the loaded model (so the model is
not invoked). -/
theorem predict_missing_field (m mAlt : Model) (data : Option Dict)
    (h : data = Option.none ∨
      ∃ d, data = some d ∧
        (dictIsEmpty d = true ∨ lookupKey d "features" = Option.none)) :
    predict (some m) data =
      Response.failure 400
        ⟨"Invalid request", "Request must contain \"features\" array"⟩ ∧
    predict (some m) data = predict (some mAlt) data := by
  have key : ∀ mm : Model, predict (some mm) data =
      Response.failure 400
        ⟨"Invalid request", "Request must contain \"features\" array"⟩ := by
    intro mm
    rcases h with h | ⟨d, rfl, h⟩
    · subst h
      rfl
    · rcases h with h | h
      · simp [predict, h]
      · by_cases he : dictIsEmpty d
        · simp [predict, he]
        · simp [predict, he, h]
  exact ⟨key m, (key m).trans (key mAlt).symm⟩

/-- C5 witness: the empty object body, under two different loaded
models. -/
theorem predict_missing_field_witness :
    predict (some demoModel) (some []) =
      Response.failure 400
        ⟨"Invalid request", "Request must contain \"features\" array"⟩ ∧
    predict (some demoModel) (some []) = predict (some altModel) (some []) :=
  predict_missing_field demoModel altModel (some [])
    (Or.inr ⟨[], rfl, Or.inl rfl⟩)

/-- Every outcome of the predict handler is one of its own renderings:
a 200 success or a 400/500 error. The handler is a total function of
(model state, payload), so no fault leaves it unhandled. -/
theorem predict_total_handled (st : Option Model) (data : Option Dict) :
    handled (predict st data) = true := by
  unfold predict
  split
  · rfl
  · cases data with
    | none => rfl
    | some d =>
      simp only []
      split
      · rfl
      · split
        · rfl
        · split
          · rfl
          · split
            · rfl
            · split
              · rfl
              · rfl
        · rfl

/-- C6: a raise inside the model call is caught and rendered as the
generic 500 "Prediction failed" error carrying the failure description,
and for every model state and payload the handler returns one of its own
handled renderings — no fault propagates to the caller. -/
theorem predict_catches_failures (m : Model) (d : Dict) (fs : List PyVal)
    (e : String)
    (hne : dictIsEmpty d = false)
    (hfind : lookupKey d "features" = some (PyVal.list fs))
    (hlen : fs.length = 5)
    (hdom : fs.all inBinaryDomain = true)
    (hm : m fs = Except.error e) :
    predict (some m) (some d) =
      Response.failure 500 ⟨"Prediction failed", e⟩ ∧
    ∀ (st : Option Model) (data : Option Dict),
      handled (predict st data) = true := by
  constructor
  · simp [predict, hne, hfind, hlen, hdom, make_prediction, hm]
  · exact predict_total_handled

/-- C6 witness: a valid payload against a classifier whose call raises
"inference exploded". -/
theorem predict_catches_failures_witness :
    predict (some errModel)
        (some [("features",
          PyVal.list [PyVal.int 0, PyVal.int 1, PyVal.int 0,
                      PyVal.int 1, PyVal.int 1])]) =
      Response.failure 500 ⟨"Prediction failed", "inference exploded"⟩ ∧
    ∀ (st : Option Model) (data : Option Dict),
      handled (predict st data) = true :=
  predict_catches_failures errModel
    [("features",
      PyVal.list [PyVal.int 0, PyVal.int 1, PyVal.int 0,
                  PyVal.int 1, PyVal.int 1])]
    [PyVal.int 0, PyVal.int 1, PyVal.int 0, PyVal.int 1, PyVal.int 1]
    "inference exploded" rfl rfl rfl rfl rfl

/-- C7: starting from the absent state, `load_model` answers `false` and
leaves the state absent on every failure — missing file or a raising
deserialization — and answers `true` exactly when the deserialized model
has been stored. It is a total function, so it never raises. -/
theorem load_model_contract (env : LoadEnv) :
    ((load_model env Option.none).1 = false →
      (load_model env Option.none).2 = Option.none) ∧
    ((load_model env Option.none).1 = true →
      ∃ m, env.deserialize = Except.ok m ∧
        (load_model env Option.none).2 = some m) := by
  obtain ⟨fe, de⟩ := env
  cases fe
  · simp [load_model]
  · cases de with
    | ok m => simp [load_model]
    | error e => simp [load_model]

/-- C7 witness: a missing artifact file leaves the model state absent,
and a successful deserialization stores the model. -/
theorem load_model_contract_witness :
    (load_model ⟨false, Except.error "file not found"⟩ Option.none).2 =
      Option.none ∧
    ∃ m, (Except.ok demoModel : Except String Model) = Except.ok m ∧
      (load_model ⟨true, Except.ok demoModel⟩ Option.none).2 = some m :=
  ⟨(load_model_contract ⟨false, Except.error "file not found"⟩).1 rfl,
   (load_model_contract ⟨true, Except.ok demoModel⟩).2 rfl⟩

/-- C9: the model state is, by construction of the store, either absent
or a whole loaded classifier; the predict and health handlers leave it
unchanged on every call; and `load_model` — the only writer — leaves it
absent or stores exactly the deserialized classifier. -/
theorem model_state_invariant (st : Option Model) (data : Option Dict)
    (env : LoadEnv) :
    (predictStep st data).2 = st ∧
    (healthStep st).2 = st ∧
    ((load_model env Option.none).2 = Option.none ∨
      ∃ m, env.deserialize = Except.ok m ∧
        (load_model env Option.none).2 = some m) := by
  refine ⟨rfl, rfl, ?_⟩
  obtain ⟨fe, de⟩ := env
  cases fe
  · left
    rfl
  · cases de with
    | ok m => exact Or.inr ⟨m, rfl, rfl⟩
    | error e => left
                 rfl

/-- C10: Python booleans pass the binary-domain test (`True == 1`,
`False == 0`), so a length-5 list of booleans reaches the model, and the
un-normalized boolean values are echoed back verbatim in the
`input_features` fields of the success body. -/
theorem predict_accepts_booleans (m : Model) (d : Dict)
    (b0 b1 b2 b3 b4 : Bool) (p : Int)
    (hne : dictIsEmpty d = false)
    (hfind : lookupKey d "features" =
      some (PyVal.list [PyVal.bool b0, PyVal.bool b1, PyVal.bool b2,
                        PyVal.bool b3, PyVal.bool b4]))
    (hm : m [PyVal.bool b0, PyVal.bool b1, PyVal.bool b2,
             PyVal.bool b3, PyVal.bool b4] = Except.ok p) :
    predict (some m) (some d) =
      Response.success 200
        ⟨p, p == 1, "high",
         ⟨PyVal.bool b0, PyVal.bool b1, PyVal.bool b2, PyVal.bool b3,
          PyVal.bool b4⟩,
         if p == 1 then "Suitable for exercise"
         else "Not suitable for exercise"⟩ := by
  have hdom : ∀ b : Bool, inBinaryDomain (PyVal.bool b) = true := by
    intro b
    cases b <;> rfl
  simp [predict, hne, hfind, hdom, make_prediction, hm]

/-- C10 witness: the boolean payload `[true, false, true, true, true]`
against a loaded classifier answering 1; the booleans come back verbatim
in the success body. -/
theorem predict_accepts_booleans_witness :
    predict (some demoModel)
        (some [("features",
          PyVal.list [PyVal.bool true, PyVal.bool false, PyVal.bool true,
                      PyVal.bool true, PyVal.bool true])]) =
      Response.success 200
        ⟨1, (1 : Int) == 1, "high",
         ⟨PyVal.bool true, PyVal.bool false, PyVal.bool true,
          PyVal.bool true, PyVal.bool true⟩,
         if (1 : Int) == 1 then "Suitable for exercise"
         else "Not suitable for exercise"⟩ :=
  predict_accepts_booleans demoModel
    [("features",
      PyVal.list [PyVal.bool true, PyVal.bool false, PyVal.bool true,
                  PyVal.bool true, PyVal.bool true])]
    true false true true true 1 rfl rfl rfl

end WeatherApp
